import Mathlib

/-!
Shallow embedding of the raster-vision configuration code
(`rastervision_pytorch_learner/.../learner_config.py`) and of the
classification task strategy (`rastervision/ml_tasks/classification.py`),
together with theorems checking the natural-language specification
against it.

Python values are embedded as follows: machine integers as `Nat`
(the code only manipulates non-negative sizes and counts), Python
floats as exact fractions (`PyFloat`), fallible code as
`Except String`, and the process-global random-number generator as an
explicitly threaded `RandomState`.  Torch datasets
(`Dataset` / `ConcatDataset` / `Subset`) are embedded as the inductive
`TorchDataset`.
-/

/-- Python floats, embedded as exact fractions (numerator and positive
denominator).  The code only uses them as proportions in [0, 1]. -/
structure PyFloat where
  num : Int
  den : Nat := 1
deriving DecidableEq, Repr

/-- Python `int(n * f)` for a non-negative integer `n` and a float `f`:
multiplication followed by truncation toward zero. -/
def PyFloat.mulTrunc (f : PyFloat) (n : Nat) : Int :=
  Int.tdiv ((n : Int) * f.num) (f.den : Int)

/-- State of the process-global random-number generator (`random` module).
The code depends only on seeding being reproducible, so the generator is
embedded as a deterministic function of this state. -/
structure RandomState where
  state : Nat
deriving DecidableEq, Repr

/-- Models one step of the pseudo-random generator as a linear
congruential generator.  The exact constants are irrelevant to every
claim; only determinism in the state matters. -/
def lcgNext (s : Nat) : Nat := (s * 1103515245 + 12345) % 2147483648

/-- Models `random.seed(n)`: the generator state becomes a function of
`n` alone, independent of the previous state. -/
def random_seed (n : Nat) : RandomState := ⟨n % 2147483648⟩

/-- Draw a number in `[0, n)` from the generator. -/
def randBelow (st : RandomState) (n : Nat) : Nat × RandomState :=
  let s := lcgNext st.state
  (s % n, ⟨s⟩)

/-- Fisher-Yates style shuffle, fuelled by the list length.  Models
`random.shuffle`: a deterministic permutation of the input given the
generator state. -/
def shuffleGo : Nat → RandomState → List Nat → List Nat × RandomState
  | 0, st, _ => ([], st)
  | _ + 1, st, [] => ([], st)
  | n + 1, st, l =>
    let jst := randBelow st l.length
    let rest := shuffleGo n jst.2 (l.eraseIdx jst.1)
    (l.getD jst.1 0 :: rest.1, rest.2)

/-- Models `random.shuffle(l)` (applied to a fresh list, returning the
shuffled list and the advanced generator state). -/
def pyShuffle (st : RandomState) (l : List Nat) : List Nat × RandomState :=
  shuffleGo l.length st l

/-- Embedding of torch datasets as built by this code: a leaf dataset
(as produced by `dir_to_dataset` / `scene_to_dataset`), a
`ConcatDataset` over a list of datasets, or a `Subset` given by a list
of indices into an underlying dataset. -/
inductive TorchDataset (α : Type) : Type where
  | base (items : List α)
  | concat (parts : List (TorchDataset α))
  | subset (ds : TorchDataset α) (indices : List Nat)

/-- Python `len` on a torch dataset: length of the item list for a leaf,
sum of the lengths for `ConcatDataset`, number of indices for `Subset`. -/
def TorchDataset.len {α : Type} : TorchDataset α → Nat
  | .base items => items.length
  | .subset _ idxs => idxs.length
  | .concat parts => go parts
where go {α : Type} : List (TorchDataset α) → Nat
  | [] => 0
  | d :: ds => d.len + go ds

/-- The indices of the outermost `Subset` wrapper of a successfully
built dataset, if any. -/
def subsetIndices {α : Type} :
    Except String (TorchDataset α × RandomState) → Option (List Nat)
  | .ok (.subset _ idxs, _) => some idxs
  | _ => none

/-- `DataConfig.random_subset_dataset(ds, size, fraction)` from the
source: returns `ds` unchanged when neither argument is given, raises a
`ValueError` when both are given, converts a fraction to an absolute
count by truncation, and otherwise seeds the global generator with 1234,
shuffles the full index list of `ds` and wraps `ds` in a `Subset` of the
first `size` shuffled indices. -/
def DataConfig.random_subset_dataset {α : Type} (st : RandomState)
    (ds : TorchDataset α) (size : Option Nat) (fraction : Option PyFloat) :
    Except String (TorchDataset α × RandomState) :=
  match size, fraction with
  | none, none => .ok (ds, st)
  | some _, some _ => .error "Specify either size or fraction but not both."
  | some s, none =>
    let n := ds.len
    let st1 := random_seed 1234
    let shuffled := pyShuffle st1 (List.range n)
    .ok (.subset ds (shuffled.1.take s), shuffled.2)
  | none, some f =>
    let n := ds.len
    let sz : Nat := (f.mulTrunc n).toNat
    let st1 := random_seed 1234
    let shuffled := pyShuffle st1 (List.range n)
    .ok (.subset ds (shuffled.1.take sz), shuffled.2)

/-- The training-set cap as applied at the end of `ImageDataConfig.build`
and `GeoDataConfig.build`: `random_subset_dataset` is called only when
`train_sz` or `train_sz_rel` is set. -/
def applyTrainCap {α : Type} (st : RandomState) (ds : TorchDataset α)
    (train_sz : Option Nat) (train_sz_rel : Option PyFloat) :
    Except String (TorchDataset α × RandomState) :=
  if train_sz.isSome ∨ train_sz_rel.isSome then
    DataConfig.random_subset_dataset st ds train_sz train_sz_rel
  else
    .ok (ds, st)

/-- A serialized albumentations transform (a dict in Python); its
contents are opaque to every claim. -/
abbrev AlbTransformDict := List (String × String)

/-- The default plot transform, `A.to_dict(MinMaxNormalize())`. -/
def minMaxNormalizeDict : AlbTransformDict :=
  [("__class_fullname__", "MinMaxNormalize")]

/-- The name-to-channel-indices mapping that
`validate_and_update_channel_display_groups` produces (a Python dict,
embedded as an association list in insertion order). -/
abbrev ChannelDict := List (String × List Nat)

/-- The `channel_display_groups` field value: either a dict of
title-to-group entries or a list of channel-index groups. -/
abbrev ChannelGroups := ChannelDict ⊕ List (List Nat)

/-- Python `str` of a list of ints, e.g. `[0, 1, 2]`. -/
def pyListRepr (l : List Nat) : String :=
  "[" ++ String.intercalate ", " (l.map toString) ++ "]"

/-- Insertion into a Python dict embedded as an association list: an
existing key keeps its position and gets the new value, a new key is
appended. -/
def dictInsert (d : ChannelDict) (k : String) (v : List Nat) : ChannelDict :=
  if d.any (fun p => p.1 == k) then
    d.map (fun p => if p.1 == k then (k, v) else p)
  else
    d ++ [(k, v)]

/-- A dict comprehension over a list of key-value pairs. -/
def listToDict (ps : ChannelDict) : ChannelDict :=
  ps.foldl (fun d p => dictInsert d p.1 p.2) []

/-- The conversion step of `validate_and_update_channel_display_groups`:
an unset value defaults to the first `min 3 img_channels` channels as a
single group named Input; an empty collection is rejected; a list is
converted to a dict with generated labels; a dict has its values copied
as lists. -/
def channelGroupsToDict (groups : Option ChannelGroups) (img_channels : Nat) :
    Except String ChannelDict :=
  match groups with
  | none => .ok [("Input", List.range (min 3 img_channels))]
  | some g =>
    let n :=
      match g with
      | .inl d => d.length
      | .inr l => l.length
    if n = 0 then
      .error "channel_display_groups cannot be empty. Set to None instead."
    else
      match g with
      | .inl d => .ok (d.map (fun p => (p.1, p.2)))
      | .inr l =>
        .ok (listToDict (l.map (fun chs => ("Channels: " ++ pyListRepr chs, chs))))

/-- The validation loop of `validate_and_update_channel_display_groups`:
each group must have between 1 and 3 channel indices and each index must
be below `img_channels`; the first offending group is named in the
error. -/
def checkChannelGroups (img_channels : Nat) : ChannelDict → Except String Unit
  | [] => .ok ()
  | p :: rest =>
    if p.2.length = 0 ∨ 3 < p.2.length then
      .error ("channel_display_groups[" ++ p.1 ++ "]: len(group) must be 1, 2, or 3")
    else if ¬ (∀ i ∈ p.2, i < img_channels) then
      .error ("Invalid channel indices in channel_display_groups[" ++ p.1 ++ "].")
    else
      checkChannelGroups img_channels rest

/-- Config related to plotting (`PlotOptions`). -/
structure PlotOptions where
  transform : Option AlbTransformDict := some minMaxNormalizeDict
  channel_display_groups : Option ChannelGroups := none
deriving DecidableEq, Repr

/-- `PlotOptions.validate_and_update_channel_display_groups(img_channels)`
from the source: conversion followed by per-group validation, returning
the resulting dict. -/
def PlotOptions.validate_and_update_channel_display_groups (po : PlotOptions)
    (img_channels : Nat) : Except String ChannelDict :=
  match channelGroupsToDict po.channel_display_groups img_channels with
  | .error e => .error e
  | .ok d =>
    match checkChannelGroups img_channels d with
    | .error e => .error e
    | .ok _ => .ok d

/-- `ExternalModuleConfig`: describes an object loaded via Torch Hub. -/
structure ExternalModuleConfig where
  uri : Option String := none
  github_repo : Option String := none
  name : Option String := none
  entrypoint : String
  entrypoint_args : List String := []
  entrypoint_kwargs : List (String × String) := []
  force_reload : Bool := false
deriving DecidableEq, Repr

/-- `ExternalModuleConfig.validate_config`: exactly one of `uri` and
`github_repo` must be set. -/
def ExternalModuleConfig.validate_config (c : ExternalModuleConfig) :
    Except String Unit :=
  if c.uri.isSome = c.github_repo.isSome then
    .error "Must specify one of github_repo and uri."
  else
    .ok ()

/-- The value of the `ignore_last_class` field: a Python bool or the
literal string force. -/
inductive IgnoreLastClass where
  | ofBool (b : Bool)
  | force
deriving DecidableEq, Repr

/-- Config related to the solver (`SolverConfig`), with the field
defaults of the source. -/
structure SolverConfig where
  lr : PyFloat := ⟨1, 10000⟩
  num_epochs : Nat := 10
  test_num_epochs : Nat := 2
  test_batch_sz : Nat := 4
  overfit_num_steps : Nat := 1
  sync_interval : Nat := 1
  batch_sz : Nat := 32
  one_cycle : Bool := true
  multi_stage : List Nat := []
  class_loss_weights : Option (List PyFloat) := none
  ignore_last_class : IgnoreLastClass := .ofBool false
  external_loss_def : Option ExternalModuleConfig := none
deriving DecidableEq, Repr

/-- `SolverConfig.update`: a no-op in the source. -/
def SolverConfig.update (c : SolverConfig) : SolverConfig := c

/-- `SolverConfig.validate_config` from the source: rejects
`ignore_last_class=True` together with an external loss definition, and
rejects explicit class weights together with an external loss
definition, in that order. -/
def SolverConfig.validate_config (c : SolverConfig) : Except String Unit :=
  if c.ignore_last_class = .ofBool true ∧ c.external_loss_def.isSome then
    .error "ignore_last_class=True is not supported with external_loss_def."
  else if c.class_loss_weights.isSome ∧ c.external_loss_def.isSome then
    .error "class_loss_weights is not supported with external_loss_def."
  else
    .ok ()

/-- The `Backbone` integer-to-name lookup table from
`Backbone.int_to_str`, in source order. -/
def backboneIntToStrTable : List (Nat × String) :=
  [(1, "alexnet"),
   (2, "densenet121"),
   (3, "densenet169"),
   (4, "densenet201"),
   (5, "densenet161"),
   (6, "googlenet"),
   (7, "inception_v3"),
   (8, "mnasnet0_5"),
   (9, "mnasnet0_75"),
   (10, "mnasnet1_0"),
   (11, "mnasnet1_3"),
   (12, "mobilenet_v2"),
   (13, "resnet18"),
   (14, "resnet34"),
   (15, "resnet50"),
   (16, "resnet101"),
   (17, "resnet152"),
   (18, "resnext50_32x4d"),
   (19, "resnext101_32x8d"),
   (20, "wide_resnet50_2"),
   (21, "wide_resnet101_2"),
   (22, "shufflenet_v2_x0_5"),
   (23, "shufflenet_v2_x1_0"),
   (24, "shufflenet_v2_x1_5"),
   (25, "shufflenet_v2_x2_0"),
   (26, "squeezenet1_0"),
   (27, "squeezenet1_1"),
   (28, "vgg11"),
   (29, "vgg11_bn"),
   (30, "vgg13"),
   (31, "vgg13_bn"),
   (32, "vgg16"),
   (33, "vgg16_bn"),
   (34, "vgg19_bn"),
   (35, "vgg19")]

/-- `Backbone.int_to_str(x)`: dictionary lookup in the fixed table; a
missing key is a `KeyError`, embedded as `none`. -/
def Backbone.int_to_str (x : Nat) : Option String :=
  backboneIntToStrTable.lookup x

/-- The `backbone` entry of a serialized model config: an integer id in
schema version 0, a string name afterwards. -/
structure ModelCfgDict where
  backbone : Nat ⊕ String
deriving DecidableEq, Repr

/-- `model_config_upgrader(cfg_dict, version)` from the source: at
version 0 the stored backbone value is replaced by
`Backbone.int_to_str` of it (a `KeyError` if it is not one of the 35
integer keys); at any other version the dict passes through
unchanged. -/
def model_config_upgrader (cfg : ModelCfgDict) (version : Nat) :
    Except String ModelCfgDict :=
  if version = 0 then
    match cfg.backbone with
    | .inl n =>
      match Backbone.int_to_str n with
      | some s => .ok { backbone := .inr s }
      | none => .error "KeyError"
    | .inr _ => .error "KeyError"
  else
    .ok cfg

/-- Config related to models (`ModelConfig`); the backbone name is
embedded as a string. -/
structure ModelConfig where
  backbone : String := "resnet18"
  pretrained : Bool := true
  init_weights : Option String := none
  load_strict : Bool := true
  external_def : Option ExternalModuleConfig := none
deriving DecidableEq, Repr

/-- `ModelConfig.update`: a no-op in the source. -/
def ModelConfig.update (c : ModelConfig) : ModelConfig := c

/-- A color triple as produced by `color_to_triple`. -/
abbrev ColorTriple := Nat × Nat × Nat

/-- Models the external `color_to_triple` collaborator: a random color
drawn from the process-global generator state. -/
def color_to_triple (st : RandomState) : ColorTriple × RandomState :=
  let s1 := lcgNext st.state
  let s2 := lcgNext s1
  let s3 := lcgNext s2
  ((s1 % 256, s2 % 256, s3 % 256), ⟨s3⟩)

/-- One random color per class name, as in `DataConfig.update`. -/
def genColors : Nat → RandomState → List ColorTriple × RandomState
  | 0, st => ([], st)
  | n + 1, st =>
    let cst := color_to_triple st
    let rest := genColors n cst.2
    (cst.1 :: rest.1, rest.2)

/-- Config related to datasets (`DataConfig`), with the field defaults
of the source. -/
structure DataConfig where
  class_names : List String := []
  class_colors : Option (List ColorTriple) := none
  img_channels : Option Nat := none
  img_sz : Nat := 256
  train_sz : Option Nat := none
  train_sz_rel : Option PyFloat := none
  num_workers : Nat := 4
  augmentors : List String := ["RandomRotate90", "HorizontalFlip", "VerticalFlip"]
  base_transform : Option AlbTransformDict := none
  aug_transform : Option AlbTransformDict := none
  plot_options : PlotOptions := {}
  preview_batch_limit : Option Nat := none
deriving DecidableEq, Repr

/-- `PlotOptions.update(data_cfg)` from the source: when the data config
declares `img_channels`, the display groups are validated and updated;
otherwise nothing happens. -/
def PlotOptions.update (po : PlotOptions) (data_cfg : DataConfig) :
    Except String PlotOptions :=
  match data_cfg.img_channels with
  | none => .ok po
  | some n =>
    match po.validate_and_update_channel_display_groups n with
    | .error e => .error e
    | .ok d => .ok { po with channel_display_groups := some (.inl d) }

/-- `DataConfig.update` from the source: missing or empty class colors
are filled with random triples, then the plot options are updated. -/
def DataConfig.update (c : DataConfig) (st : RandomState) :
    Except String (DataConfig × RandomState) :=
  let needGen :=
    match c.class_colors with
    | none => true
    | some l => l.isEmpty
  let colors :=
    if needGen then genColors c.class_names.length st
    else (c.class_colors.getD [], st)
  let c1 := { c with class_colors := some colors.1 }
  match c1.plot_options.update c1 with
  | .error e => .error e
  | .ok po => .ok ({ c1 with plot_options := po }, colors.2)

/-- Root aggregate config (`LearnerConfig`), with the field defaults of
the source. -/
structure LearnerConfig where
  model : ModelConfig
  solver : SolverConfig
  data : DataConfig
  predict_mode : Bool := false
  test_mode : Bool := false
  overfit_mode : Bool := false
  eval_train : Bool := false
  save_model_bundle : Bool := true
  log_tensorboard : Bool := true
  run_tensorboard : Bool := false
  output_uri : Option String := none
deriving DecidableEq, Repr

/-- `LearnerConfig.update` from the source: overfit mode halves the
image size; if test mode is also set, the source then reads
`self.solver.test_overfit_num_steps`, a field `SolverConfig` does not
declare, which raises an `AttributeError` (embedded as an error); test
mode substitutes the test epoch count and batch size and forces zero
workers; finally `update` is propagated to the model, solver and data
sub-configs in that order. -/
def LearnerConfig.update (cfg : LearnerConfig) (st : RandomState) :
    Except String (LearnerConfig × RandomState) :=
  let data0 :=
    if cfg.overfit_mode then { cfg.data with img_sz := cfg.data.img_sz / 2 }
    else cfg.data
  if cfg.overfit_mode && cfg.test_mode then
    .error "AttributeError: SolverConfig has no field test_overfit_num_steps"
  else
    let solver0 :=
      if cfg.test_mode then
        { cfg.solver with
            num_epochs := cfg.solver.test_num_epochs
            batch_sz := cfg.solver.test_batch_sz }
      else cfg.solver
    let data1 := if cfg.test_mode then { data0 with num_workers := 0 } else data0
    let model1 := cfg.model.update
    let solver1 := solver0.update
    match data1.update st with
    | .error e => .error e
    | .ok dst => .ok ({ cfg with model := model1, solver := solver1, data := dst.1 }, dst.2)

/-- A dataset uri as accepted by `ImageDataConfig`: a single uri string
or a list of zip-file uris. -/
abbrev DataUri := String ⊕ List String

/-- A per-group training cap as it flows through
`get_datasets_from_group_uris`: a Python int or a Python float. -/
abbrev GroupSize := Nat ⊕ PyFloat

/-- Config for datasets made of image chips (`ImageDataConfig`). -/
structure ImageDataConfig extends DataConfig where
  data_format : Option String := none
  uri : Option DataUri := none
  group_uris : Option (List DataUri) := none
  group_train_sz : Option (Nat ⊕ List Nat) := none
  group_train_sz_rel : Option (PyFloat ⊕ List PyFloat) := none
deriving DecidableEq, Repr

/-- The result of `get_datasets_from_uri` for one uri, abstracted:
resolving a uri to train/valid/test datasets goes through the file
system (directories, zip archives, sync), so it enters the embedding as
a function argument. -/
abbrev UriFetch (α : Type) :=
  DataUri → TorchDataset α × TorchDataset α × TorchDataset α

/-- The per-group loop of `get_datasets_from_group_uris`: fetch each
group uri, apply its cap (a float is a fraction, an int an absolute
size) to the training dataset when present, and collect the three
dataset lists. -/
def groupUrisLoop {α : Type} (fetch : UriFetch α) :
    List (DataUri × Option GroupSize) → RandomState →
    Except String
      ((List (TorchDataset α) × List (TorchDataset α) × List (TorchDataset α)) ×
        RandomState)
  | [], st => .ok (([], [], []), st)
  | (uri, size) :: rest, st =>
    let fetched := fetch uri
    let capped : Except String (TorchDataset α × RandomState) :=
      match size with
      | none => .ok (fetched.1, st)
      | some (.inr f) =>
        DataConfig.random_subset_dataset st fetched.1 none (some f)
      | some (.inl s) =>
        DataConfig.random_subset_dataset st fetched.1 (some s) none
    match capped with
    | .error e => .error e
    | .ok trst =>
      match groupUrisLoop fetch rest trst.2 with
      | .error e => .error e
      | .ok restRes =>
        .ok ((trst.1 :: restRes.1.1, fetched.2.1 :: restRes.1.2.1,
              fetched.2.2 :: restRes.1.2.2), restRes.2)

/-- `ImageDataConfig.get_datasets_from_group_uris` from the source: a
scalar cap (or `none`) is replicated across all groups, a list cap is
zipped with the group uris; the per-group datasets are then
concatenated split by split. -/
def ImageDataConfig.get_datasets_from_group_uris {α : Type}
    (fetch : UriFetch α) (st : RandomState) (uris : List DataUri)
    (group_train_sz : Option (Nat ⊕ List Nat))
    (group_train_sz_rel : Option (PyFloat ⊕ List PyFloat)) :
    Except String
      ((TorchDataset α × TorchDataset α × TorchDataset α) × RandomState) :=
  let group_sizes : List (Option GroupSize) :=
    match group_train_sz, group_train_sz_rel with
    | some (.inl s), _ => List.replicate uris.length (some (.inl s))
    | some (.inr l), _ => l.map (fun s => some (.inl s))
    | none, some (.inl f) => List.replicate uris.length (some (.inr f))
    | none, some (.inr l) => l.map (fun f => some (.inr f))
    | none, none => List.replicate uris.length none
  match groupUrisLoop fetch (uris.zip group_sizes) st with
  | .error e => .error e
  | .ok res =>
    .ok ((.concat res.1.1, .concat res.1.2.1, .concat res.1.2.2), res.2)

/-- `ImageDataConfig.build` from the source.  Without `group_uris` it
returns the datasets fetched from `uri` directly (no cap is applied on
this path).  With `group_uris` it calls `get_datasets_from_group_uris`
passing no group caps (the call at the source passes only the uris and
mode flags), then applies the overall `train_sz` / `train_sz_rel` cap
to the concatenated training dataset. -/
def ImageDataConfig.build {α : Type} (c : ImageDataConfig)
    (fetch : UriFetch α) (st : RandomState) :
    Except String
      ((TorchDataset α × TorchDataset α × TorchDataset α) × RandomState) :=
  match c.group_uris with
  | none =>
    match c.uri with
    | none => .error "TypeError: uri is None"
    | some u => .ok (fetch u, st)
  | some guris =>
    match ImageDataConfig.get_datasets_from_group_uris fetch st guris none none with
    | .error e => .error e
    | .ok gres =>
      match applyTrainCap gres.2 gres.1.1 c.train_sz c.train_sz_rel with
      | .error e => .error e
      | .ok capped => .ok ((capped.1, gres.1.2.1, gres.1.2.2), capped.2)

/-- `GeoDataConfig.build` from the source, with the scene-to-dataset
assembly (`make_datasets`) abstracted as the already built
train/valid/test triple: the overall training cap is applied exactly
when `train_sz` or `train_sz_rel` is set. -/
def GeoDataConfig.build {α : Type}
    (made : TorchDataset α × TorchDataset α × TorchDataset α)
    (st : RandomState) (train_sz : Option Nat)
    (train_sz_rel : Option PyFloat) :
    Except String
      ((TorchDataset α × TorchDataset α × TorchDataset α) × RandomState) :=
  match applyTrainCap st made.1 train_sz train_sz_rel with
  | .error e => .error e
  | .ok capped => .ok ((capped.1, made.2.1, made.2.2), capped.2)

/-- The window sampling method of `GeoDataWindowConfig`. -/
inductive GeoDataWindowMethod where
  | sliding
  | random
deriving DecidableEq, Repr

/-- A size-like field value: a positive int or a pair of them. -/
abbrev SizeField := Nat ⊕ (Nat × Nat)

/-- `GeoDataWindowConfig`, with the field defaults of the source. -/
structure GeoDataWindowConfig where
  method : GeoDataWindowMethod := .sliding
  size : SizeField
  stride : Option SizeField := none
  padding : Option SizeField := none
  size_lims : Option (Nat × Nat) := none
  h_lims : Option (Nat × Nat) := none
  w_lims : Option (Nat × Nat) := none
  max_windows : Nat := 10000
  max_sample_attempts : Nat := 100
  efficient_aoi_sampling : Bool := true
deriving DecidableEq, Repr

/-- `GeoDataWindowConfig.update` from the source: with the random
method, when neither `size_lims` nor `h_lims` is set, `size_lims`
becomes `(size, size + 1)` (for a tuple-valued `size` the Python
expression `self.size + 1` raises a `TypeError`). -/
def GeoDataWindowConfig.update (c : GeoDataWindowConfig) :
    Except String GeoDataWindowConfig :=
  match c.method with
  | .sliding => .ok c
  | .random =>
    if c.size_lims.isSome ∨ c.h_lims.isSome then .ok c
    else
      match c.size with
      | .inl s => .ok { c with size_lims := some (s, s + 1) }
      | .inr _ => .error "TypeError: cannot add an int to a tuple"

/-- `GeoDataWindowConfig.validate_config` from the source: it first
runs `update`, then requires a stride for the sliding method; for the
random method it rejects `size_lims` set together with (or instead of
neither of) the h/w limits, and rejects `h_lims` without `w_lims` or
vice versa. -/
def GeoDataWindowConfig.validate_config (c : GeoDataWindowConfig) :
    Except String GeoDataWindowConfig :=
  match c.update with
  | .error e => .error e
  | .ok c1 =>
    match c1.method with
    | .sliding =>
      if c1.stride.isNone then
        .error "stride must be specified if using GeoDataWindowMethod.sliding"
      else .ok c1
    | .random =>
      if c1.size_lims.isSome = (c1.w_lims.isSome || c1.h_lims.isSome) then
        .error "Specify either size_lims or h and w lims."
      else if ¬ (c1.h_lims.isSome = c1.w_lims.isSome) then
        .error "h_lims and w_lims must both be specified"
      else .ok c1

/-- A rectangular window in pixel coordinates (`Box`). -/
structure Box where
  ymin : Nat
  xmin : Nat
  ymax : Nat
  xmax : Nat
deriving DecidableEq, Repr

/-- Python `range(start, stop, step)` for non-negative bounds. -/
def pyRange (start stop step : Nat) : List Nat :=
  (List.range ((stop - start + step - 1) / step)).map (fun i => start + i * step)

/-- Modelled from the spec: `extent.get_windows(chip_size, stride)` is
code of this repository that is not under src (only its caller is); per
the spec it yields the grid of cells of the given size across the
raster extent, one per stride step along each axis, so that with stride
equal to the chip size the tiling is non-overlapping. -/
def Box.get_windows (extent : Box) (chip_size stride : Nat) : List Box :=
  (pyRange extent.ymin extent.ymax stride).flatMap
    (fun r => (pyRange extent.xmin extent.xmax stride).map
      (fun c => ⟨r, c, r + chip_size, c + chip_size⟩))

/-- A raster source: an extent and, for each window, the flattened
pixel chip (pixel values are non-negative machine numbers). -/
structure RasterSource where
  extent : Box
  get_chip : Box → List Nat

/-- A scene, reduced to the raster source read by the windowing
methods. -/
structure Scene where
  raster_source : RasterSource

/-- The options object read by the classification task windowing
methods; only `chip_size` is used. -/
structure ClassificationOptions where
  chip_size : Nat
deriving DecidableEq, Repr

/-- `Classification.get_train_windows` from the source: iterate the
grid windows with stride equal to the chip size and keep those whose
pixel chip sums to a positive value. -/
def Classification.get_train_windows (scene : Scene)
    (options : ClassificationOptions) : List Box :=
  let extent := scene.raster_source.extent
  let chip_size := options.chip_size
  let stride := chip_size
  (extent.get_windows chip_size stride).filter
    (fun w => decide (0 < (scene.raster_source.get_chip w).sum))

/-- `Classification.get_predict_windows` from the source: the grid
windows with stride equal to the chip size, unfiltered. -/
def Classification.get_predict_windows (extent : Box)
    (options : ClassificationOptions) : List Box :=
  let chip_size := options.chip_size
  let stride := chip_size
  extent.get_windows chip_size stride

/-- A group dict passes the validation loop when every group is within
bounds. -/
theorem checkChannelGroups_ok (n : Nat) (d : ChannelDict)
    (h : ∀ p ∈ d, p.2.length ≠ 0 ∧ p.2.length ≤ 3 ∧ ∀ i ∈ p.2, i < n) :
    checkChannelGroups n d = .ok () := by
  induction d with
  | nil => rfl
  | cons q rest ih =>
    obtain ⟨h1, h2, h3⟩ := h _ (List.mem_cons_self _ _)
    have hrec := ih (fun p hp => h p (List.mem_cons_of_mem _ hp))
    simp only [checkChannelGroups]
    rw [if_neg (by omega), if_neg (not_not_intro h3)]
    exact hrec

/-- A group dict that passes the validation loop has every group within
bounds. -/
theorem checkChannelGroups_sound (n : Nat) (d : ChannelDict)
    (h : checkChannelGroups n d = .ok ()) :
    ∀ p ∈ d, 1 ≤ p.2.length ∧ p.2.length ≤ 3 ∧ ∀ i ∈ p.2, i < n := by
  induction d with
  | nil => intro p hp; cases hp
  | cons q rest ih =>
    simp only [checkChannelGroups] at h
    by_cases hA : q.2.length = 0 ∨ 3 < q.2.length
    · rw [if_pos hA] at h; cases h
    · rw [if_neg hA] at h
      by_cases hB : ∀ i ∈ q.2, i < n
      · rw [if_neg (not_not_intro hB)] at h
        intro p hp
        rcases List.mem_cons.mp hp with hp | hp
        · subst hp
          push_neg at hA
          exact ⟨by omega, hA.2, hB⟩
        · exact ih h p hp
      · rw [if_pos hB] at h; cases h

/-- A successful run of `validate_and_update_channel_display_groups` is
exactly a successful conversion whose result passes the validation
loop. -/
theorem validate_channel_groups_ok_iff (po : PlotOptions) (n : Nat)
    (r : ChannelDict) :
    po.validate_and_update_channel_display_groups n = .ok r ↔
      channelGroupsToDict po.channel_display_groups n = .ok r ∧
        checkChannelGroups n r = .ok () := by
  unfold PlotOptions.validate_and_update_channel_display_groups
  constructor
  · intro h
    split at h
    · cases h
    · rename_i d hc
      split at h
      · cases h
      · rename_i u hk
        injection h with h
        subst h
        cases u
        exact ⟨hc, hk⟩
  · rintro ⟨h1, h2⟩
    simp only [h1, h2]

/-- C7: the backbone version-upgrade rule uses a fixed 1-indexed lookup
table with exactly 35 entries; at schema version 0 a stored integer
backbone 13 upgrades to the string resnet18. -/
theorem backbone_upgrader_spec :
    model_config_upgrader ⟨.inl 13⟩ 0 = .ok ⟨.inr "resnet18"⟩ ∧
    Backbone.int_to_str 13 = some "resnet18" ∧
    backboneIntToStrTable.length = 35 ∧
    backboneIntToStrTable.map Prod.fst = List.range' 1 35 := by
  refine ⟨rfl, rfl, rfl, by decide⟩

/-- C9: an empty `channel_display_groups` collection (empty dict or
empty list) is rejected by `validate_and_update_channel_display_groups`
rather than falling back to the unset default; only an unset value
yields the default Input group. -/
theorem channel_display_groups_empty_raises (img_channels : Nat)
    (t : Option AlbTransformDict) :
    (PlotOptions.validate_and_update_channel_display_groups
        ⟨t, some (.inl [])⟩ img_channels =
      .error "channel_display_groups cannot be empty. Set to None instead.") ∧
    (PlotOptions.validate_and_update_channel_display_groups
        ⟨t, some (.inr [])⟩ img_channels =
      .error "channel_display_groups cannot be empty. Set to None instead.") :=
  ⟨rfl, rfl⟩

/-- C10: with neither size nor fraction set, `random_subset_dataset`
returns the dataset itself unchanged (no Subset wrapper, generator
state untouched), so the conditional training cap of the build paths
equals calling `random_subset_dataset` unconditionally. -/
theorem random_subset_dataset_identity (α : Type) (st : RandomState)
    (ds : TorchDataset α) (train_sz : Option Nat)
    (train_sz_rel : Option PyFloat) :
    DataConfig.random_subset_dataset st ds none none = .ok (ds, st) ∧
    applyTrainCap st ds train_sz train_sz_rel =
      DataConfig.random_subset_dataset st ds train_sz train_sz_rel := by
  constructor
  · rfl
  · cases train_sz <;> cases train_sz_rel <;>
      simp [applyTrainCap, DataConfig.random_subset_dataset]

/-- C8: training windows are exactly the non-overlapping grid cells
(stride equal to the chip size) whose pixel chip does not sum to zero;
prediction windows are the same tiling with no filtering. -/
theorem classification_windows_spec (scene : Scene) (extent : Box)
    (options : ClassificationOptions) :
    Classification.get_train_windows scene options =
      (scene.raster_source.extent.get_windows options.chip_size
          options.chip_size).filter
        (fun w => decide ((scene.raster_source.get_chip w).sum ≠ 0)) ∧
    Classification.get_predict_windows extent options =
      extent.get_windows options.chip_size options.chip_size := by
  constructor
  · unfold Classification.get_train_windows
    refine List.filter_congr ?_
    intro w _
    simp [decide_eq_decide, Nat.pos_iff_ne_zero]
  · rfl

/-- C3: giving both size and fraction raises; a fraction is converted
to an absolute size by truncation; the selection is the prefix of the
seed-1234 shuffle of the full index list; and the selected index
sequence depends only on the dataset length and the size, not on the
dataset contents or the incoming generator state. -/
theorem random_subset_dataset_spec (α : Type) (st : RandomState)
    (ds : TorchDataset α) (sz : Nat) (f : PyFloat) :
    (DataConfig.random_subset_dataset st ds (some sz) (some f) =
      .error "Specify either size or fraction but not both.") ∧
    (DataConfig.random_subset_dataset st ds none (some f) =
      DataConfig.random_subset_dataset st ds
        (some (f.mulTrunc ds.len).toNat) none) ∧
    (DataConfig.random_subset_dataset st ds (some sz) none =
      .ok (.subset ds
            ((pyShuffle (random_seed 1234) (List.range ds.len)).1.take sz),
          (pyShuffle (random_seed 1234) (List.range ds.len)).2)) ∧
    (∀ (st2 : RandomState) (ds2 : TorchDataset α), ds.len = ds2.len →
      subsetIndices (DataConfig.random_subset_dataset st ds (some sz) none) =
        subsetIndices
          (DataConfig.random_subset_dataset st2 ds2 (some sz) none)) := by
  refine ⟨rfl, rfl, rfl, ?_⟩
  intro st2 ds2 hlen
  simp [DataConfig.random_subset_dataset, subsetIndices, hlen]

/-- Witness for C3: the determinism conjunct at two concrete datasets
of equal length with different contents and generator states. -/
theorem random_subset_dataset_spec_witness :
    subsetIndices
      (DataConfig.random_subset_dataset (⟨0⟩ : RandomState)
        (.base [10, 20, 30]) (some 2) none) =
    subsetIndices
      (DataConfig.random_subset_dataset (⟨999⟩ : RandomState)
        (.base [7, 8, 9]) (some 2) none) :=
  (random_subset_dataset_spec Nat ⟨0⟩ (.base [10, 20, 30]) 2 ⟨1, 2⟩).2.2.2
    ⟨999⟩ (.base [7, 8, 9]) rfl

/-- C4: with an external loss definition set, `validate_config` raises
for `ignore_last_class=True`, raises for non-null class weights, and
passes for the force override with the weights at their null default. -/
theorem solverConfig_validate_external_loss (c : SolverConfig)
    (h : c.external_loss_def.isSome = true) :
    (c.ignore_last_class = .ofBool true →
      c.validate_config =
        .error "ignore_last_class=True is not supported with external_loss_def.") ∧
    (c.class_loss_weights.isSome = true →
      ∃ e, c.validate_config = .error e) ∧
    (c.ignore_last_class = .force → c.class_loss_weights = none →
      c.validate_config = .ok ()) := by
  unfold SolverConfig.validate_config
  refine ⟨?_, ?_, ?_⟩
  · intro hi
    rw [if_pos ⟨hi, h⟩]
  · intro hw
    by_cases hi : c.ignore_last_class = .ofBool true ∧ c.external_loss_def.isSome = true
    · exact ⟨"ignore_last_class=True is not supported with external_loss_def.",
        by rw [if_pos hi]⟩
    · exact ⟨"class_loss_weights is not supported with external_loss_def.",
        by rw [if_neg hi, if_pos ⟨hw, h⟩]⟩
  · intro hi hw
    rw [if_neg (by simp [hi]), if_neg (by simp [hw])]

/-- A solver config with an external loss and `ignore_last_class=True`,
used to exercise the validation. -/
def solverCfgIgnoreTrue : SolverConfig :=
  { ignore_last_class := .ofBool true,
    external_loss_def := some { entrypoint := "my_loss" } }

/-- A solver config with an external loss and explicit class weights,
used to exercise the validation. -/
def solverCfgWeights : SolverConfig :=
  { class_loss_weights := some [⟨1, 2⟩],
    external_loss_def := some { entrypoint := "my_loss" } }

/-- A solver config with an external loss and the force override, used
to exercise the validation. -/
def solverCfgForce : SolverConfig :=
  { ignore_last_class := .force,
    external_loss_def := some { entrypoint := "my_loss" } }

/-- Witness for C4 at three concrete solver configs. -/
theorem solverConfig_validate_external_loss_witness :
    (solverCfgIgnoreTrue.validate_config =
      .error "ignore_last_class=True is not supported with external_loss_def.") ∧
    (∃ e, solverCfgWeights.validate_config = .error e) ∧
    (solverCfgForce.validate_config = .ok ()) :=
  ⟨(solverConfig_validate_external_loss solverCfgIgnoreTrue rfl).1 rfl,
   (solverConfig_validate_external_loss solverCfgWeights rfl).2.1 rfl,
   (solverConfig_validate_external_loss solverCfgForce rfl).2.2 rfl rfl⟩

/-- Moving the element at a valid index to the front is a permutation. -/
theorem getD_cons_eraseIdx_perm (l : List Nat) (j : Nat) (h : j < l.length) :
    (l.getD j 0 :: l.eraseIdx j).Perm l := by
  induction l generalizing j with
  | nil => cases h
  | cons x xs ih =>
    cases j with
    | zero => simp
    | succ j =>
      have h' : j < xs.length := by simpa using h
      exact (List.Perm.swap x _ _).trans (((ih j h').cons x).symm).symm

/-- The fuelled shuffle permutes its input when the fuel equals the
length. -/
theorem shuffleGo_perm (n : Nat) (st : RandomState) (l : List Nat)
    (h : l.length = n) : (shuffleGo n st l).1.Perm l := by
  induction n generalizing st l with
  | zero =>
    cases l with
    | nil => exact .nil
    | cons x xs => simp at h
  | succ n ih =>
    cases l with
    | nil => exact .nil
    | cons x xs =>
      have hj : (randBelow st (x :: xs).length).1 < (x :: xs).length := by
        unfold randBelow
        exact Nat.mod_lt _ (by simp)
      have hlen :
          ((x :: xs).eraseIdx (randBelow st (x :: xs).length).1).length = n := by
        rw [List.length_eraseIdx_of_lt hj]
        simpa using h
      simpa only [shuffleGo] using
        ((ih _ _ hlen).cons _).trans (getD_cons_eraseIdx_perm _ _ hj)

/-- The modelled `random.shuffle` produces a permutation of the input
list. -/
theorem pyShuffle_perm (st : RandomState) (l : List Nat) :
    (pyShuffle st l).1.Perm l :=
  shuffleGo_perm l.length st l rfl

/-- C5: with `channel_display_groups` unset the result is the single
Input group of the first `min 3 img_channels` channels; a list input is
converted to a mapping with generated labels; a dict input is copied;
every group of a successful result has 1 to 3 indices all below
`img_channels`; and an out-of-range index is rejected. -/
theorem channel_display_groups_spec :
    (∀ (t : Option AlbTransformDict) (n : Nat), 0 < n →
      PlotOptions.validate_and_update_channel_display_groups ⟨t, none⟩ n =
        .ok [("Input", List.range (min 3 n))]) ∧
    (PlotOptions.validate_and_update_channel_display_groups
        ⟨none, some (.inr [[0, 1, 2], [3]])⟩ 4 =
      .ok [("Channels: [0, 1, 2]", [0, 1, 2]), ("Channels: [3]", [3])]) ∧
    (∀ (t : Option AlbTransformDict) (d : ChannelDict) (n : Nat)
        (r : ChannelDict),
      PlotOptions.validate_and_update_channel_display_groups
          ⟨t, some (.inl d)⟩ n = .ok r → r = d) ∧
    (∀ (po : PlotOptions) (n : Nat) (r : ChannelDict),
      po.validate_and_update_channel_display_groups n = .ok r →
      ∀ p ∈ r, 1 ≤ p.2.length ∧ p.2.length ≤ 3 ∧ ∀ i ∈ p.2, i < n) ∧
    (∃ e, PlotOptions.validate_and_update_channel_display_groups
        ⟨none, some (.inr [[4]])⟩ 4 = .error e) := by
  refine ⟨?_, rfl, ?_, ?_, ⟨_, rfl⟩⟩
  · intro t n hn
    rw [validate_channel_groups_ok_iff]
    refine ⟨rfl, checkChannelGroups_ok n _ ?_⟩
    intro p hp
    rcases List.mem_cons.mp hp with hp | hp
    · subst hp
      refine ⟨?_, ?_, ?_⟩
      · simp only [List.length_range]
        omega
      · simp only [List.length_range]
        omega
      · intro i hi
        have hi2 := List.mem_range.mp hi
        omega
    · cases hp
  · intro t d n r h
    rw [validate_channel_groups_ok_iff] at h
    obtain ⟨h1, _⟩ := h
    simp only [channelGroupsToDict] at h1
    by_cases hd : d.length = 0
    · rw [if_pos hd] at h1
      cases h1
    · rw [if_neg hd] at h1
      injection h1 with h1
      subst h1
      simp
  · intro po n r h
    rw [validate_channel_groups_ok_iff] at h
    exact checkChannelGroups_sound n r h.2

/-- Witness for C5: the unset default at four channels yields the first
three channels as the Input group. -/
theorem channel_display_groups_spec_witness :
    PlotOptions.validate_and_update_channel_display_groups ⟨none, none⟩ 4 =
      .ok [("Input", [0, 1, 2])] :=
  channel_display_groups_spec.1 none 4 (by decide)

/-- C6: with the random method and no limits set, `update` fills
`size_lims` with `(size, size + 1)`; with the sliding method and no
stride, `validate_config` raises; with the random method,
`validate_config` passes exactly when, after `update`, either
`size_lims` alone or `h_lims` and `w_lims` together are set. -/
theorem geoDataWindowConfig_spec (c : GeoDataWindowConfig) (s : Nat) :
    (c.method = .random → c.size = .inl s → c.size_lims = none →
      c.h_lims = none → c.w_lims = none →
      c.update = .ok { c with size_lims := some (s, s + 1) }) ∧
    (c.method = .sliding → c.stride = none →
      ∃ e, c.validate_config = .error e) ∧
    (c.method = .random → c.size = .inl s →
      ((∃ c1, c.validate_config = .ok c1) ↔
        (∃ c1, c.update = .ok c1 ∧
          ((c1.size_lims.isSome = true ∧ c1.h_lims = none ∧ c1.w_lims = none) ∨
           (c1.size_lims = none ∧ c1.h_lims.isSome = true ∧
             c1.w_lims.isSome = true))))) := by
  obtain ⟨m, sz, strd, pad, sl, hl, wl, mw, msa, eas⟩ := c
  refine ⟨?_, ?_, ?_⟩
  · rintro rfl rfl rfl rfl rfl
    simp [GeoDataWindowConfig.update]
  · rintro rfl rfl
    exact ⟨_, rfl⟩
  · rintro rfl rfl
    cases sl <;> cases hl <;> cases wl <;>
      simp [GeoDataWindowConfig.validate_config, GeoDataWindowConfig.update]

/-- A random-method window config with only a size, as in the spec
example. -/
def windowCfgRandomDefault : GeoDataWindowConfig :=
  { method := .random, size := .inl 256 }

/-- A sliding-method window config without a stride. -/
def windowCfgSlidingNoStride : GeoDataWindowConfig :=
  { size := .inl 256 }

/-- Witness for C6 at the concrete spec-example configs. -/
theorem geoDataWindowConfig_spec_witness :
    (windowCfgRandomDefault.update =
      .ok { windowCfgRandomDefault with size_lims := some (256, 257) }) ∧
    (∃ e, windowCfgSlidingNoStride.validate_config = .error e) ∧
    (∃ c1, windowCfgRandomDefault.validate_config = .ok c1) :=
  ⟨(geoDataWindowConfig_spec windowCfgRandomDefault 256).1 rfl rfl rfl rfl rfl,
   (geoDataWindowConfig_spec windowCfgSlidingNoStride 256).2.1 rfl rfl,
   ((geoDataWindowConfig_spec windowCfgRandomDefault 256).2.2 rfl rfl).mpr
     ⟨{ windowCfgRandomDefault with size_lims := some (256, 257) },
      (geoDataWindowConfig_spec windowCfgRandomDefault 256).1 rfl rfl rfl rfl rfl,
      Or.inl ⟨rfl, rfl, rfl⟩⟩⟩

/-- `DataConfig.update` only touches class colors and plot options: the
numeric fields survive unchanged. -/
theorem dataConfig_update_preserves (c : DataConfig) (st : RandomState)
    (c1 : DataConfig) (st1 : RandomState) (h : c.update st = .ok (c1, st1)) :
    c1.num_workers = c.num_workers ∧ c1.img_sz = c.img_sz ∧
    c1.train_sz = c.train_sz ∧ c1.train_sz_rel = c.train_sz_rel := by
  unfold DataConfig.update at h
  dsimp only at h
  repeat' split at h
  all_goals cases h
  all_goals exact ⟨rfl, rfl, rfl, rfl⟩

/-- C2: after `update`, test mode forces zero workers and substitutes
the test epoch count and batch size, overfit mode halves the image
size, and `update` is propagated to the sub-configs; but with overfit
and test mode together the source reads the undeclared solver field
`test_overfit_num_steps`, raising an `AttributeError` instead of
substituting a test step count. -/
theorem learnerConfig_update_modes (cfg : LearnerConfig) (st : RandomState) :
    (cfg.overfit_mode = true → cfg.test_mode = true →
      cfg.update st =
        .error "AttributeError: SolverConfig has no field test_overfit_num_steps") ∧
    (∀ cfg1 st1, cfg.update st = .ok (cfg1, st1) →
      (cfg.test_mode = true →
        cfg1.data.num_workers = 0 ∧
        cfg1.solver.num_epochs = cfg.solver.test_num_epochs ∧
        cfg1.solver.batch_sz = cfg.solver.test_batch_sz) ∧
      (cfg.overfit_mode = true → cfg1.data.img_sz = cfg.data.img_sz / 2) ∧
      cfg1.model = cfg.model.update) := by
  constructor
  · intro ho ht
    simp [LearnerConfig.update, ho, ht]
  · intro cfg1 st1 h
    unfold LearnerConfig.update at h
    cases ho : cfg.overfit_mode <;> cases ht : cfg.test_mode
    · -- neither mode
      simp [ho, ht] at h
      split at h
      · cases h
      · rename_i dst hd
        injection h with h
        injection h with h1 h2
        subst h1
        obtain ⟨hw, hi, _, _⟩ := dataConfig_update_preserves _ _ _ _ hd
        refine ⟨?_, ?_, rfl⟩
        · intro htc
          cases htc
        · intro hoc
          cases hoc
    · -- test mode only
      simp [ho, ht] at h
      split at h
      · cases h
      · rename_i dst hd
        injection h with h
        injection h with h1 h2
        subst h1
        obtain ⟨hw, hi, _, _⟩ := dataConfig_update_preserves _ _ _ _ hd
        refine ⟨?_, ?_, rfl⟩
        · intro htc
          exact ⟨by rw [hw], rfl, rfl⟩
        · intro hoc
          cases hoc
    · -- overfit mode only
      simp [ho, ht] at h
      split at h
      · cases h
      · rename_i dst hd
        injection h with h
        injection h with h1 h2
        subst h1
        obtain ⟨hw, hi, _, _⟩ := dataConfig_update_preserves _ _ _ _ hd
        refine ⟨?_, ?_, rfl⟩
        · intro htc
          cases htc
        · intro hoc
          rw [hi]
    · -- both modes: update raises, contradicting the ok hypothesis
      simp [ho, ht] at h

/-- A learner config in test mode with default sub-configs. -/
def learnerCfgTest : LearnerConfig :=
  { model := {}, solver := {}, data := {}, test_mode := true }

/-- A learner config with overfit and test mode both set. -/
def learnerCfgOverfitTest : LearnerConfig :=
  { model := {}, solver := {}, data := {},
    test_mode := true, overfit_mode := true }

/-- The result of updating `learnerCfgTest`: test epoch count and batch
size substituted, zero workers, class colors filled in (empty, as there
are no classes). -/
def learnerCfgTestUpdated : LearnerConfig :=
  { model := {},
    solver := { num_epochs := 2, batch_sz := 4 },
    data := { num_workers := 0, class_colors := some [] },
    test_mode := true }

/-- Witness for C2: the overfit-and-test config makes `update` raise,
and the test-mode config gets zero workers and the test epoch count and
batch size. -/
theorem learnerConfig_update_modes_witness :
    (learnerCfgOverfitTest.update ⟨0⟩ =
      .error "AttributeError: SolverConfig has no field test_overfit_num_steps") ∧
    (learnerCfgTestUpdated.data.num_workers = 0 ∧
      learnerCfgTestUpdated.solver.num_epochs =
        learnerCfgTest.solver.test_num_epochs ∧
      learnerCfgTestUpdated.solver.batch_sz =
        learnerCfgTest.solver.test_batch_sz) :=
  ⟨(learnerConfig_update_modes learnerCfgOverfitTest ⟨0⟩).1 rfl rfl,
   ((learnerConfig_update_modes learnerCfgTest ⟨0⟩).2
      learnerCfgTestUpdated ⟨0⟩ rfl).1 rfl⟩

/-- Fetch function for the C1 concrete inputs: every uri resolves to a
training dataset of two items (and singleton valid and test
datasets). -/
def cexFetch : UriFetch Nat :=
  fun _ => (.base [1, 2], .base [3], .base [4])

/-- An image data config with two group uris and a per-group training
cap of one. -/
def cexCfgGrouped : ImageDataConfig :=
  { group_uris := some [.inl "a", .inl "b"],
    group_train_sz := some (.inl 1) }

/-- An image data config with a plain uri and an overall training cap
of one. -/
def cexCfgUri : ImageDataConfig :=
  { uri := some (.inl "a"), train_sz := some 1 }

/-- The training-dataset length of a successful build result. -/
def trainLenOf
    (r : Except String
      ((TorchDataset Nat × TorchDataset Nat × TorchDataset Nat) ×
        RandomState)) : Option Nat :=
  match r with
  | .ok (t, _) => some t.1.len
  | .error _ => none

/-- C1 counterexample: with two groups of two training items each and a
per-group cap of one, `build` yields a training dataset of four items
(the per-group caps are never forwarded by `build`), while applying the
per-group caps before concatenation as claimed yields two; and in the
non-grouped path with an overall cap of one, `build` yields the uncapped
two items rather than one. -/
theorem imageDataConfig_build_cap_counterexample :
    trainLenOf (cexCfgGrouped.build cexFetch ⟨0⟩) = some 4 ∧
    cexCfgGrouped.group_train_sz = some (.inl 1) ∧
    trainLenOf (ImageDataConfig.get_datasets_from_group_uris cexFetch ⟨0⟩
      [.inl "a", .inl "b"] (some (.inl 1)) none) = some 2 ∧
    trainLenOf (cexCfgUri.build cexFetch ⟨0⟩) = some 2 ∧
    cexCfgUri.train_sz = some 1 ∧
    (4 : Nat) ≠ 2 ∧ (2 : Nat) ≠ 1 :=
  ⟨rfl, rfl, rfl, rfl, rfl, by decide, by decide⟩

/-- C1 (amended): in `build`, the grouped path calls
`get_datasets_from_group_uris` with no per-group caps, so
`group_train_sz` and `group_train_sz_rel` never influence the result,
and then applies the overall `train_sz` / `train_sz_rel` cap to the
concatenated training dataset; the non-grouped path returns the fetched
datasets with no cap applied at all. -/
theorem imageDataConfig_build_cap_placement (α : Type) (c : ImageDataConfig)
    (fetch : UriFetch α) (st : RandomState) :
    (∀ guris, c.group_uris = some guris →
      (c.build fetch st =
        match ImageDataConfig.get_datasets_from_group_uris fetch st guris
            none none with
        | .error e => .error e
        | .ok gres =>
          match applyTrainCap gres.2 gres.1.1 c.train_sz c.train_sz_rel with
          | .error e => .error e
          | .ok capped => .ok ((capped.1, gres.1.2.1, gres.1.2.2), capped.2)) ∧
      c.build fetch st =
        ({ c with group_train_sz := none,
                  group_train_sz_rel := none } : ImageDataConfig).build fetch st) ∧
    (∀ u, c.group_uris = none → c.uri = some u →
      c.build fetch st = .ok (fetch u, st)) := by
  constructor
  · intro guris hg
    constructor
    · simp only [ImageDataConfig.build, hg]
    · simp only [ImageDataConfig.build, hg]
  · intro u hg hu
    simp only [ImageDataConfig.build, hg, hu]

/-- Witness for C1 at the concrete configs: the grouped build ignores
the per-group caps, and the non-grouped build returns the fetched
datasets unchanged despite the overall cap being set. -/
theorem imageDataConfig_build_cap_placement_witness :
    (cexCfgGrouped.build cexFetch ⟨0⟩ =
      ({ cexCfgGrouped with group_train_sz := none,
                            group_train_sz_rel := none } : ImageDataConfig).build
        cexFetch ⟨0⟩) ∧
    (cexCfgUri.build cexFetch ⟨0⟩ = .ok (cexFetch (.inl "a"), ⟨0⟩)) :=
  ⟨((imageDataConfig_build_cap_placement Nat cexCfgGrouped cexFetch ⟨0⟩).1
      [.inl "a", .inl "b"] rfl).2,
   (imageDataConfig_build_cap_placement Nat cexCfgUri cexFetch ⟨0⟩).2
     (.inl "a") rfl rfl⟩
